import Mathlib

/-!
Shallow embedding of the log-handler API (FastAPI + SQLAlchemy service in
`app/`): the data model (`application`, `event` tables), the access layer
(`DataBaseManager` in `app/services/db_menager.py`) and the HTTP routers
(`app/routers/app_router.py`, `event_router.py`, `stats_router.py`).

Timestamps are modelled as natural numbers (seconds); `date_trunc` becomes
integer truncation to the bucket width.  SQL queries over the `event` table
become list operations over the events held in a `DBState`: `WHERE` is
`List.filter`, `GROUP BY k` is counting over the deduplicated keys,
`ORDER BY` is `List.insertionSort` (any stable total sort; tie order is
unspecified in the source), `LIMIT`/`OFFSET` are `take`/`drop`.
-/

namespace LogApi

/-- Severity levels, from `app/constants.py` (`ErrorLevel`). -/
inductive ErrorLevel where
  | DEBUG | INFO | WARNING | ERROR | CRITICAL
deriving DecidableEq, Repr

/-- Bucket widths for statistics, from `app/constants.py` (`TimeEnum`). -/
inductive TimeEnum where
  | HOUR | DAY
deriving DecidableEq, Repr

/-- Row of the `application` table (`app/db/models/application.py`). -/
structure Application where
  id : Nat
  name : String
  ingest_key : String
  created_at : Nat
deriving DecidableEq, Repr

/-- Row of the `event` table (`app/db/models/event.py`).  The JSONB payloads
`stack` and `tags` are opaque here; only presence/absence matters. -/
structure Event where
  id : Nat
  application_id : Nat
  occurred_at : Nat
  received_at : Nat
  level : ErrorLevel
  message : String
  stack : Option String
  tags : Option String
deriving DecidableEq, Repr

/-- The relational store: both tables, plus the server clock used for
server-assigned `received_at` defaults (`server_default=func.now()`). -/
structure DBState where
  apps : List Application
  events : List Event
  now : Nat
deriving Repr

/-- Exception raised by the access layer on a failed ingest-credential check
(`app.tools.custom_exceptions.IngestForbiddenError`). -/
inductive IngestForbiddenError where
  | mk
deriving DecidableEq, Repr

/-- Request schema `EventCreationInput` (`app/schemas/event_creation_input.py`). -/
structure EventCreationInput where
  occurred_at : Nat
  level : ErrorLevel
  message : String
  stack : Option String
  tags : Option String
deriving DecidableEq, Repr

/-- Response schema `EventCreationOutput` (`app/schemas/event_creation_output.py`). -/
structure EventCreationOutput where
  id : Nat
  application_id : Nat
  received_at : Nat
deriving DecidableEq, Repr

/-- Response schema `EventRead` (`app/schemas/event_read.py`). -/
structure EventRead where
  id : Nat
  application_id : Nat
  occurred_at : Nat
  received_at : Nat
  level : ErrorLevel
  message : String
  stack : Option String
  tags : Option String
deriving DecidableEq, Repr

/-- Response schema `EventList` (`app/schemas/event_list.py`);
`next_offset: int | None = None`. -/
structure EventList where
  items : List EventRead
  next_offset : Option Nat
deriving DecidableEq, Repr

/-- Response schema `ApplicationRead` (`app/schemas/application_read.py`).
Note that the schema declares `ingest_key: str` as a required field. -/
structure ApplicationRead where
  id : Nat
  name : String
  ingest_key : String
  created_at : Nat
  events : Option EventRead
deriving DecidableEq, Repr

/-- Error body `ErrorResponse` (`app/schemas/error_response.py`). -/
structure ErrorResponse where
  error : String
  message : String
deriving DecidableEq, Repr

/-- Item of the timeseries response (`app/schemas/timeseries_output.py`). -/
structure Series where
  bucket_start : Nat
  count : Nat
deriving DecidableEq, Repr

/-- Response schema `TimeseriesOutput` (`app/schemas/timeseries_output.py`). -/
structure TimeseriesOutput where
  interval : TimeEnum
  since : Nat
  untilTime : Nat
  series : List Series
deriving DecidableEq, Repr

/-- Item of the by-level response (`app/schemas/by_level_output.py`). -/
structure ByLevelItem where
  level : ErrorLevel
  count : Nat
deriving DecidableEq, Repr

/-- Response schema `ByLevelOutput` (`app/schemas/by_level_output.py`). -/
structure ByLevelOutput where
  since : Nat
  untilTime : Nat
  items : List ByLevelItem
deriving DecidableEq, Repr

/-- Item of the top-messages response (`app/schemas/top_messages_output.py`). -/
structure TopMessageItem where
  message : String
  count : Nat
  last_seen : Nat
deriving DecidableEq, Repr

/-- Response schema `TopMessagesOutput` (`app/schemas/top_messages_output.py`). -/
structure TopMessagesOutput where
  limit : Nat
  items : List TopMessageItem
deriving DecidableEq, Repr

/-- HTTP outcome of a route: either a success with a status code and a typed
body, or an error status with the uniform `ErrorResponse` body. -/
inductive ApiResult (α : Type) where
  | success : Nat → α → ApiResult α
  | failure : Nat → ErrorResponse → ApiResult α
deriving DecidableEq, Repr

/-! ## Access layer: `DataBaseManager` (`app/services/db_menager.py`) -/

/-- `DataBaseManager._read_by_id` / `read_app_by_id`: `SELECT ... WHERE id = :id`
with `scalar_one_or_none()`; `id` is the primary key, so at most one row matches. -/
def read_app_by_id (db : DBState) (app_id : Nat) : Option Application :=
  db.apps.find? (fun a => decide (a.id = app_id))

/-- `DataBaseManager._create_event_where_condition`, as a row predicate:
always `Event.application_id == app_id`; then, for each filter that is
provided, `Event.level == level`, `Event.received_at >= since`, and
`Event.received_at <= until`, all conjoined. -/
def eventMatchesWhere (app_id : Nat) (since untl : Option Nat)
    (level : Option ErrorLevel) (e : Event) : Bool :=
  decide (e.application_id = app_id)
    && (match level with
        | none => true
        | some l => decide (e.level = l))
    && (match since with
        | none => true
        | some s => decide (s ≤ e.received_at))
    && (match untl with
        | none => true
        | some u => decide (e.received_at ≤ u))

/-- Ordering used by `ORDER BY Event.received_at DESC`. -/
def receivedDesc (a b : Event) : Prop :=
  b.received_at ≤ a.received_at

instance : DecidableRel receivedDesc := fun a b =>
  inferInstanceAs (Decidable (b.received_at ≤ a.received_at))

instance : IsTotal Event receivedDesc :=
  ⟨fun a b => Nat.le_total b.received_at a.received_at⟩

instance : IsTrans Event receivedDesc :=
  ⟨fun _ _ _ h1 h2 => Nat.le_trans h2 h1⟩

/-- `DataBaseManager.read_events_by_application_id`: filter by the WHERE
conditions, order by `received_at` descending, then `OFFSET`/`LIMIT`. -/
def read_events_by_application_id (db : DBState) (app_id limit offset : Nat)
    (level : Option ErrorLevel) (since untl : Option Nat) : List Event :=
  (((db.events.filter (eventMatchesWhere app_id since untl level)).insertionSort
      receivedDesc).drop offset).take limit

/-- Next value of the auto-incrementing event primary key. -/
def nextEventId (events : List Event) : Nat :=
  events.foldr (fun e m => max e.id m) 0 + 1

/-- `DataBaseManager.create_event`: one `SELECT` over the pair
`Application.id == app_id AND Application.ingest_key == ingest_key`; if no row
matches, raise `IngestForbiddenError`; otherwise insert the event with
server-assigned id and `received_at` and return it. -/
def create_event (db : DBState) (app_id : Nat) (payload : EventCreationInput)
    (ingest_key : String) : Except IngestForbiddenError (DBState × Event) :=
  match db.apps.find?
      (fun a => decide (a.id = app_id) && decide (a.ingest_key = ingest_key)) with
  | none => .error .mk
  | some _ =>
      let e : Event :=
        { id := nextEventId db.events
          application_id := app_id
          occurred_at := payload.occurred_at
          received_at := db.now
          level := payload.level
          message := payload.message
          stack := payload.stack
          tags := payload.tags }
      .ok ({ db with events := db.events ++ [e] }, e)

/-- `DataBaseManager.read_all_apps`: `SELECT` over the whole table, in
insertion order. -/
def read_all_apps (db : DBState) : List Application :=
  db.apps

/-- `func.date_trunc(interval, received_at)`: truncate a timestamp to the
containing bucket boundary. -/
def dateTrunc (interval : TimeEnum) (t : Nat) : Nat :=
  match interval with
  | .HOUR => t / 3600 * 3600
  | .DAY => t / 86400 * 86400

/-- `GROUP BY key` with `count(Event.id)`: one row per distinct key value of
the filtered rows, carrying the number of rows with that key. -/
def groupCounts {κ : Type} [DecidableEq κ] (key : Event → κ) (l : List Event) :
    List (κ × Nat) :=
  (l.map key).dedup.map (fun k => (k, (l.map key).count k))

/-- Ordering used by `ORDER BY bucket_start` (ascending). -/
def bucketAsc (a b : Nat × Nat) : Prop :=
  a.1 ≤ b.1

instance : DecidableRel bucketAsc := fun a b =>
  inferInstanceAs (Decidable (a.1 ≤ b.1))

/-- Ordering used by `ORDER BY count DESC`. -/
def countDesc (a b : ErrorLevel × Nat) : Prop :=
  b.2 ≤ a.2

instance : DecidableRel countDesc := fun a b =>
  inferInstanceAs (Decidable (b.2 ≤ a.2))

/-- Ordering used by `ORDER BY count DESC, max(received_at) DESC`. -/
def topDesc (a b : String × Nat × Nat) : Prop :=
  b.2.1 < a.2.1 ∨ (a.2.1 = b.2.1 ∧ b.2.2 ≤ a.2.2)

instance : DecidableRel topDesc := fun a b =>
  inferInstanceAs (Decidable (b.2.1 < a.2.1 ∨ (a.2.1 = b.2.1 ∧ b.2.2 ≤ a.2.2)))

/-- `DataBaseManager.read_bucket_stats_list`: count filtered events per
`date_trunc` bucket, ordered by bucket start ascending.  Rows are
`(bucket_start, count)`. -/
def read_bucket_stats_list (db : DBState) (app_id since untl : Nat)
    (interval : TimeEnum) (level : Option ErrorLevel) : List (Nat × Nat) :=
  let filtered := db.events.filter (eventMatchesWhere app_id (some since) (some untl) level)
  (groupCounts (fun e => dateTrunc interval e.received_at) filtered).insertionSort bucketAsc

/-- `DataBaseManager.read_stats_by_level`: count filtered events per severity
level (the WHERE conditions are built with `level=None`: this query has no
level filter), ordered by count descending.  Rows are `(level, count)`. -/
def read_stats_by_level (db : DBState) (app_id since untl : Nat) :
    List (ErrorLevel × Nat) :=
  let filtered := db.events.filter (eventMatchesWhere app_id (some since) (some untl) none)
  (groupCounts (fun e => e.level) filtered).insertionSort countDesc

/-- `DataBaseManager.read_top_messages`: per distinct message of the filtered
events, its count and `max(received_at)`, ordered by count descending then
last-seen descending, truncated by `LIMIT`.  Rows are
`(message, count, last_seen)`. -/
def read_top_messages (db : DBState) (app_id since untl limit : Nat)
    (level : Option ErrorLevel) : List (String × Nat × Nat) :=
  let filtered := db.events.filter (eventMatchesWhere app_id (some since) (some untl) level)
  let rows := (filtered.map (fun e => e.message)).dedup.map (fun m =>
    (m, (filtered.map (fun e => e.message)).count m,
     ((filtered.filter (fun e => decide (e.message = m))).map
        (fun e => e.received_at)).foldr max 0))
  (rows.insertionSort topDesc).take limit

/-! ## HTTP routes -/

/-- Conversion of an `Event` row into the `EventRead` response schema
(`EventRead.model_validate(event)`). -/
def toEventRead (e : Event) : EventRead :=
  { id := e.id
    application_id := e.application_id
    occurred_at := e.occurred_at
    received_at := e.received_at
    level := e.level
    message := e.message
    stack := e.stack
    tags := e.tags }

/-- Conversion of an `Application` row into the `ApplicationRead` response
schema (FastAPI validates the returned ORM object against the
`response_model`); the back-reference `events` field stays absent. -/
def toApplicationRead (a : Application) : ApplicationRead :=
  { id := a.id
    name := a.name
    ingest_key := a.ingest_key
    created_at := a.created_at
    events := none }

/-- Names of the fields present in the serialized JSON of an
`ApplicationRead` body.  With `response_model_exclude_none=True` the optional
`events` field is dropped when it is `None`; `id`, `name`, `ingest_key` and
`created_at` are required fields of the schema and are always serialized. -/
def ApplicationRead.jsonFields (a : ApplicationRead) : List String :=
  ["id", "name", "ingest_key", "created_at"] ++
    (match a.events with
     | none => []
     | some _ => ["events"])

/-- Route `GET /apps/{app_id}` (`app_router.read_single_application`).  The
handler returns whatever `read_app_by_id` yields.  `scalar_one_or_none()`
never raises `NoResultFound`, so the `except NoResultFound` branch that would
produce a 404 is unreachable; on a missing row the handler returns `None`,
which fails validation against `response_model=ApplicationRead` and surfaces
as a 500 Internal Server Error. -/
def read_single_application_route (db : DBState) (app_id : Nat) :
    ApiResult ApplicationRead :=
  match read_app_by_id db app_id with
  | some a => .success 200 (toApplicationRead a)
  | none => .failure 500 { error := "INTERNAL", message := "Internal Server Error" }

/-- Route `GET /apps/` (`app_router.read_all_applications`). -/
def read_all_applications_route (db : DBState) : ApiResult (List ApplicationRead) :=
  .success 200 ((read_all_apps db).map toApplicationRead)

/-- Route `GET /apps/{app_id}/events`
(`event_router.get_events_by_application_id`).  The handler always returns
`EventList(items=..., next_offset=offset + limit)`; the `except NoResultFound`
branch that would produce a 404 is unreachable, because
`read_events_by_application_id` ends in `scalars().all()`, which returns a
(possibly empty) list and never raises `NoResultFound`. -/
def get_events_route (db : DBState) (app_id limit offset : Nat)
    (level : Option ErrorLevel) (since untl : Option Nat) : ApiResult EventList :=
  let events := read_events_by_application_id db app_id limit offset level since untl
  .success 200 { items := events.map toEventRead, next_offset := some (offset + limit) }

/-- Route `POST /apps/{app_id}/events` (`event_router.create_event`): on
`IngestForbiddenError` answer 403 with the uniform error body, otherwise 201
with the `EventCreationOutput` projection of the created row. -/
def create_event_route (db : DBState) (app_id : Nat) (payload : EventCreationInput)
    (ingest_key : String) : ApiResult EventCreationOutput × DBState :=
  match create_event db app_id payload ingest_key with
  | .error _ =>
      (.failure 403 { error := "ERROR", message := "Invalid application or ingest key" }, db)
  | .ok (db2, e) =>
      (.success 201 { id := e.id, application_id := e.application_id,
                      received_at := e.received_at }, db2)

/-- Route `GET /apps/{app_id}/stats/timeseries` (`stats_router.get_timeseries`):
reject `since >= until` with 400 before any query, otherwise 200 with the
bucketed counts. -/
def get_timeseries_route (db : DBState) (app_id since untl : Nat)
    (interval : TimeEnum) (level : Option ErrorLevel) : ApiResult TimeseriesOutput :=
  if untl ≤ since then
    .failure 400 { error := "CONFLICT", message := "since must be earlier than until" }
  else
    .success 200
      { interval := interval
        since := since
        untilTime := untl
        series := (read_bucket_stats_list db app_id since untl interval level).map
          (fun r => { bucket_start := r.1, count := r.2 }) }

/-- Route `GET /apps/{app_id}/stats/by-level` (`stats_router.get_by_level`):
reject `since >= until` with 400 before any query, otherwise 200 with the
per-level counts.  The endpoint takes no level filter. -/
def get_by_level_route (db : DBState) (app_id since untl : Nat) :
    ApiResult ByLevelOutput :=
  if untl ≤ since then
    .failure 400 { error := "CONFLICT", message := "since must be earlier than until" }
  else
    .success 200
      { since := since
        untilTime := untl
        items := (read_stats_by_level db app_id since untl).map
          (fun r => { level := r.1, count := r.2 }) }

/-- Route `GET /apps/{app_id}/stats/top-messages`
(`stats_router.get_top_messages`): reject `since >= until` with 400 before any
query, otherwise 200 with the most frequent messages. -/
def get_top_messages_route (db : DBState) (app_id since untl limit : Nat)
    (level : Option ErrorLevel) : ApiResult TopMessagesOutput :=
  if untl ≤ since then
    .failure 400 { error := "CONFLICT", message := "since must be earlier than until" }
  else
    .success 200
      { limit := limit
        items := (read_top_messages db app_id since untl limit level).map
          (fun r => { message := r.1, count := r.2.1, last_seen := r.2.2 }) }

/-! ## Aggregate totals -/

/-- Sum of the `count` column of a grouped result. -/
def sndSum {κ : Type} (l : List (κ × Nat)) : Nat :=
  (l.map (fun r => r.2)).sum

/-- Sum of the `count` column of a top-messages result. -/
def topSum (l : List (String × Nat × Nat)) : Nat :=
  (l.map (fun r => r.2.1)).sum

/-! ## Concrete states used as witnesses and counterexamples -/

/-- A registered application. -/
def appA : Application :=
  { id := 1, name := "svc-a", ingest_key := "c0ffee", created_at := 100 }

/-- A store holding only `appA`. -/
def dbApps : DBState :=
  { apps := [appA], events := [], now := 50 }

/-- The empty store. -/
def dbEmpty : DBState :=
  { apps := [], events := [], now := 0 }

/-- An event whose receipt timestamp sits exactly on an `until` bound. -/
def evAtBound : Event :=
  { id := 1, application_id := 1, occurred_at := 7000, received_at := 7200,
    level := .ERROR, message := "boom", stack := none, tags := none }

/-- Store for the inclusive-bound counterexample. -/
def dbBound : DBState :=
  { apps := [appA], events := [evAtBound], now := 8000 }

/-- A single INFO event inside a query range. -/
def evInfo : Event :=
  { id := 2, application_id := 1, occurred_at := 4, received_at := 5,
    level := .INFO, message := "hello", stack := none, tags := none }

/-- Store for the level-filter counterexample. -/
def dbInfo : DBState :=
  { apps := [appA], events := [evInfo], now := 9 }

/-- An event payload used for ingest witnesses. -/
def payloadA : EventCreationInput :=
  { occurred_at := 40, level := .ERROR, message := "boom", stack := none, tags := none }

/-- Two events of one application with distinct receipt times, listed out of
order in the store. -/
def dbTwo : DBState :=
  { apps := [appA]
    events :=
      [ { id := 3, application_id := 1, occurred_at := 10, received_at := 10,
          level := .ERROR, message := "a", stack := none, tags := none },
        { id := 4, application_id := 1, occurred_at := 20, received_at := 20,
          level := .INFO, message := "b", stack := none, tags := none } ]
    now := 30 }

/-! ## Helper lemmas -/

/-- Unfolding of the WHERE predicate built by `_create_event_where_condition`:
the level filter is an exact match, `since` is an inclusive lower bound and
`until` an inclusive upper bound on `received_at`, all conjoined. -/
theorem eventMatchesWhere_iff (a : Nat) (since untl : Option Nat)
    (level : Option ErrorLevel) (e : Event) :
    eventMatchesWhere a since untl level e = true ↔
      (e.application_id = a
        ∧ (∀ lv, level = some lv → e.level = lv)
        ∧ (∀ s, since = some s → s ≤ e.received_at)
        ∧ (∀ u, untl = some u → e.received_at ≤ u)) := by
  cases level <;> cases since <;> cases untl <;>
    simp [eventMatchesWhere, and_assoc]

/-- The counts of a grouped result sum to the number of grouped rows. -/
theorem sndSum_groupCounts {κ : Type} [DecidableEq κ] (key : Event → κ)
    (l : List Event) : sndSum (groupCounts key l) = l.length := by
  unfold sndSum groupCounts
  rw [List.map_map]
  have h : ((fun r : κ × Nat => r.2) ∘ fun k => (k, (l.map key).count k))
      = fun k => (l.map key).count k := rfl
  rw [h, List.sum_map_count_dedup_eq_length, List.length_map]

/-- Sorting a grouped result does not change the sum of its counts. -/
theorem sndSum_insertionSort {κ : Type} (r : κ × Nat → κ × Nat → Prop)
    [DecidableRel r] (l : List (κ × Nat)) :
    sndSum (l.insertionSort r) = sndSum l := by
  unfold sndSum
  exact ((List.perm_insertionSort r l).map (fun x => x.2)).sum_eq

/-- The timeseries counts sum to the number of events passing the WHERE
conditions. -/
theorem sndSum_read_bucket_stats (db : DBState) (a s u : Nat) (i : TimeEnum)
    (l : Option ErrorLevel) :
    sndSum (read_bucket_stats_list db a s u i l)
      = (db.events.filter (eventMatchesWhere a (some s) (some u) l)).length := by
  unfold read_bucket_stats_list
  rw [sndSum_insertionSort, sndSum_groupCounts]

/-- The by-level counts sum to the number of events passing the WHERE
conditions (with no level filter). -/
theorem sndSum_read_stats_by_level (db : DBState) (a s u : Nat) :
    sndSum (read_stats_by_level db a s u)
      = (db.events.filter (eventMatchesWhere a (some s) (some u) none)).length := by
  unfold read_stats_by_level
  rw [sndSum_insertionSort, sndSum_groupCounts]

/-! ## Claim theorems -/

/-- C1: on ingest, the access layer performs one lookup over the pair
(application id, ingest key); the route answers 403 Forbidden exactly when no
application row matches both simultaneously, and a failure of the ingest route
is always 403 — never 404 NotFound — regardless of whether the id exists. -/
theorem claim_C1_ingest_pair_forbidden (db : DBState) (a : Nat)
    (p : EventCreationInput) (k : String) :
    ((create_event_route db a p k).1
        = ApiResult.failure 403
            { error := "ERROR", message := "Invalid application or ingest key" }
      ↔ ∀ app ∈ db.apps, ¬(app.id = a ∧ app.ingest_key = k))
    ∧ ∀ st er, (create_event_route db a p k).1 = ApiResult.failure st er → st = 403 := by
  unfold create_event_route create_event
  cases hfind : db.apps.find?
      (fun x => decide (x.id = a) && decide (x.ingest_key = k)) with
  | none =>
      simp only [hfind]
      refine ⟨⟨fun _ app hmem hpair => ?_, fun _ => trivial⟩, fun st er h => ?_⟩
      · have hnot := List.find?_eq_none.mp hfind app hmem
        simp [hpair.1, hpair.2] at hnot
      · cases h
        rfl
  | some app =>
      simp only [hfind]
      refine ⟨⟨fun h => ApiResult.noConfusion h, fun hall => ?_⟩,
        fun st er h => ApiResult.noConfusion h⟩
      have hmem := List.mem_of_find?_eq_some hfind
      have hp := List.find?_some hfind
      simp only [Bool.and_eq_true, decide_eq_true_eq] at hp
      exact (hall app hmem ⟨hp.1, hp.2⟩).elim

/-- Witness for C1: a registered id with a wrong ingest key is answered 403. -/
theorem claim_C1_ingest_pair_forbidden_witness :
    (create_event_route dbApps 1 payloadA "wrong").1
      = ApiResult.failure 403
          { error := "ERROR", message := "Invalid application or ingest key" } :=
  (claim_C1_ingest_pair_forbidden dbApps 1 payloadA "wrong").1.mpr (by decide)

/-- C2: the claim says listing events of an unknown application id fails with
404 NotFound; in the code `read_events_by_application_id` never raises
`NoResultFound` (the `except` branch of the router is dead), so the route
answers 200 with an empty page. -/
theorem claim_C2_unknown_app_list_is_200 :
    get_events_route dbEmpty 999 10 0 none none none
      = ApiResult.success 200 { items := [], next_offset := some 10 } := rfl

/-- C3: the claim says `GET /apps/{id}` and `GET /apps` exclude the ingest
credential; in the code `ApplicationRead` declares `ingest_key` as a required
field, so both read responses carry the credential of the stored row. -/
theorem claim_C3_read_exposes_ingest_key :
    read_single_application_route dbApps 1
        = ApiResult.success 200 (toApplicationRead appA)
    ∧ "ingest_key" ∈ (toApplicationRead appA).jsonFields
    ∧ (toApplicationRead appA).ingest_key = appA.ingest_key
    ∧ read_all_applications_route dbApps
        = ApiResult.success 200 [toApplicationRead appA]
    ∧ "ingest_key" ∈ ApplicationRead.jsonFields (toApplicationRead appA) := by
  refine ⟨rfl, by decide, rfl, rfl, by decide⟩

/-- C4: the claim says `getById` on an unknown id fails with 404 NotFound; in
the code `read_app_by_id` uses `scalar_one_or_none()` and returns `None`, the
router's `except NoResultFound` branch is dead, and the `None` return fails
`response_model` validation, surfacing as a 500. -/
theorem claim_C4_unknown_app_get_is_500 :
    read_single_application_route dbEmpty 1
      = ApiResult.failure 500
          { error := "INTERNAL", message := "Internal Server Error" } := rfl

/-- C5: for each of the three statistics routes, `since == until` or
`since > until` yields a 400 with message "since must be earlier than until",
and the response does not depend on the store (the guard runs before any
query). -/
theorem claim_C5_stats_range_guard (db db2 : DBState) (a s u lim : Nat)
    (i : TimeEnum) (l : Option ErrorLevel) (h : u ≤ s) :
    (get_timeseries_route db a s u i l
        = ApiResult.failure 400
            { error := "CONFLICT", message := "since must be earlier than until" }
      ∧ get_timeseries_route db a s u i l = get_timeseries_route db2 a s u i l)
    ∧ (get_by_level_route db a s u
        = ApiResult.failure 400
            { error := "CONFLICT", message := "since must be earlier than until" }
      ∧ get_by_level_route db a s u = get_by_level_route db2 a s u)
    ∧ (get_top_messages_route db a s u lim l
        = ApiResult.failure 400
            { error := "CONFLICT", message := "since must be earlier than until" }
      ∧ get_top_messages_route db a s u lim l
          = get_top_messages_route db2 a s u lim l) := by
  unfold get_timeseries_route get_by_level_route get_top_messages_route
  simp only [if_pos h]
  exact ⟨⟨trivial, trivial⟩, ⟨trivial, trivial⟩, ⟨trivial, trivial⟩⟩

/-- Witness for C5 at `since = until = 5`. -/
theorem claim_C5_stats_range_guard_witness :
    get_timeseries_route dbApps 1 5 5 TimeEnum.HOUR none
      = ApiResult.failure 400
          { error := "CONFLICT", message := "since must be earlier than until" } :=
  ((claim_C5_stats_range_guard dbApps dbEmpty 1 5 5 10 TimeEnum.HOUR none
    (by decide)).1).1

/-- C6: every event returned by `listEvents` belongs to the requested
application and satisfies each provided filter — `level` as an exact match,
`since` as an inclusive lower bound and `until` as an inclusive upper bound on
the receipt time — and the page is ordered by receipt time descending. -/
theorem claim_C6_filters_and_order (db : DBState) (a limit offset : Nat)
    (level : Option ErrorLevel) (since untl : Option Nat) :
    (∀ e ∈ read_events_by_application_id db a limit offset level since untl,
        e.application_id = a
        ∧ (∀ lv, level = some lv → e.level = lv)
        ∧ (∀ s, since = some s → s ≤ e.received_at)
        ∧ (∀ u, untl = some u → e.received_at ≤ u))
    ∧ (read_events_by_application_id db a limit offset level since untl).Pairwise
        receivedDesc := by
  have hsub : List.Sublist
      (read_events_by_application_id db a limit offset level since untl)
      ((db.events.filter (eventMatchesWhere a since untl level)).insertionSort
        receivedDesc) :=
    (List.take_sublist _ _).trans (List.drop_sublist _ _)
  constructor
  · intro e he
    have h1 : e ∈ (db.events.filter (eventMatchesWhere a since untl level)).insertionSort
        receivedDesc := hsub.subset he
    have h2 : e ∈ db.events.filter (eventMatchesWhere a since untl level) :=
      (List.mem_insertionSort receivedDesc).mp h1
    exact (eventMatchesWhere_iff a since untl level e).mp (List.of_mem_filter h2)
  · exact (List.sorted_insertionSort receivedDesc _).sublist hsub

/-- Witness for C6: a concrete page is sorted by receipt time descending. -/
theorem claim_C6_filters_and_order_witness :
    (read_events_by_application_id dbTwo 1 50 0 none none none).Pairwise
      receivedDesc :=
  (claim_C6_filters_and_order dbTwo 1 50 0 none none none).2

/-- C8: `listEvents` with `limit = L` and `offset = O` returns a 200 page of
at most `L` items whose `next_offset` is `O + L`, even when the page is short
or empty. -/
theorem claim_C8_pagination (db : DBState) (a limit offset : Nat)
    (level : Option ErrorLevel) (since untl : Option Nat)
    (h1 : 0 < limit) (h2 : limit ≤ 50) :
    ∃ body, get_events_route db a limit offset level since untl
        = ApiResult.success 200 body
      ∧ body.items.length ≤ limit
      ∧ body.next_offset = some (offset + limit) := by
  refine ⟨_, rfl, ?_, rfl⟩
  show ((read_events_by_application_id db a limit offset level since untl).map
      toEventRead).length ≤ limit
  rw [List.length_map]
  unfold read_events_by_application_id
  exact (List.length_take_le _ _)

/-- Witness for C8 on a short page: two stored events, `limit = 10`. -/
theorem claim_C8_pagination_witness :
    ∃ body, get_events_route dbTwo 1 10 3 none none none
        = ApiResult.success 200 body
      ∧ body.items.length ≤ 10
      ∧ body.next_offset = some (3 + 10) :=
  claim_C8_pagination dbTwo 1 10 3 none none none (by decide) (by decide)

/-- C7 counterexample: an event whose receipt timestamp equals `until` is
counted by all three statistics queries, so the range is not half-open
`[since, until)` as claimed. -/
theorem claim_C7_counterexample :
    evAtBound.received_at = 7200
    ∧ sndSum (read_bucket_stats_list dbBound 1 0 7200 TimeEnum.HOUR none) = 1
    ∧ sndSum (read_stats_by_level dbBound 1 0 7200) = 1
    ∧ topSum (read_top_messages dbBound 1 0 7200 10 none) = 1 := by
  exact ⟨rfl, by decide, by decide, by decide⟩

/-- C7 (amended): the statistics range is closed `[since, until]`: the WHERE
condition shared by the three statistics queries keeps exactly the events of
the application within the inclusive bounds, and the timeseries and by-level
totals count exactly those events (so an event with receipt time equal to
`until` is included). -/
theorem claim_C7_until_inclusive (db : DBState) (a s u : Nat) (i : TimeEnum)
    (l : Option ErrorLevel) :
    sndSum (read_bucket_stats_list db a s u i l)
        = (db.events.filter (eventMatchesWhere a (some s) (some u) l)).length
    ∧ sndSum (read_stats_by_level db a s u)
        = (db.events.filter (eventMatchesWhere a (some s) (some u) none)).length
    ∧ ∀ e, eventMatchesWhere a (some s) (some u) l e = true ↔
        (e.application_id = a
          ∧ (∀ lv, l = some lv → e.level = lv)
          ∧ s ≤ e.received_at
          ∧ e.received_at ≤ u) := by
  refine ⟨sndSum_read_bucket_stats db a s u i l,
    sndSum_read_stats_by_level db a s u, fun e => ?_⟩
  have h := eventMatchesWhere_iff a (some s) (some u) l e
  simpa using h

/-- Witness for C7 (amended) at the boundary store. -/
theorem claim_C7_until_inclusive_witness :
    sndSum (read_bucket_stats_list dbBound 1 0 7200 TimeEnum.HOUR none)
      = (dbBound.events.filter (eventMatchesWhere 1 (some 0) (some 7200) none)).length :=
  (claim_C7_until_inclusive dbBound 1 0 7200 TimeEnum.HOUR none).1

/-- C9 counterexample: the by-level query takes no level filter, so with a
level filter on the timeseries the two totals differ: one INFO event in
range, timeseries filtered to ERROR sums to 0 while the by-level total is 1. -/
theorem claim_C9_counterexample :
    sndSum (read_bucket_stats_list dbInfo 1 0 10 TimeEnum.HOUR
        (some ErrorLevel.ERROR)) = 0
    ∧ sndSum (read_stats_by_level dbInfo 1 0 10) = 1
    ∧ (0 : Nat) ≠ 1 := by
  exact ⟨by decide, by decide, by decide⟩

/-- C9 (amended): by-level has no level filter; for every application id and
range with `since < until`, the timeseries bucket counts with no level filter
sum to the by-level counts summed across all levels. -/
theorem claim_C9_totals_agree (db : DBState) (a s u : Nat) (i : TimeEnum)
    (h : s < u) :
    sndSum (read_bucket_stats_list db a s u i none)
      = sndSum (read_stats_by_level db a s u) := by
  rw [sndSum_read_bucket_stats, sndSum_read_stats_by_level]

/-- Witness for C9 (amended) on a store with two events. -/
theorem claim_C9_totals_agree_witness :
    sndSum (read_bucket_stats_list dbTwo 1 0 100 TimeEnum.HOUR none)
      = sndSum (read_stats_by_level dbTwo 1 0 100) :=
  claim_C9_totals_agree dbTwo 1 0 100 TimeEnum.HOUR (by decide)

/-- C10: no statistics route ever answers 404; with `since < until` each of
the three answers 200 for every application id — no existence check is made —
and the body is an empty series/items list when no event matches. -/
theorem claim_C10_stats_never_404 (db : DBState) (a s u lim : Nat)
    (i : TimeEnum) (l : Option ErrorLevel) :
    (∀ er, get_timeseries_route db a s u i l ≠ ApiResult.failure 404 er)
    ∧ (∀ er, get_by_level_route db a s u ≠ ApiResult.failure 404 er)
    ∧ (∀ er, get_top_messages_route db a s u lim l ≠ ApiResult.failure 404 er)
    ∧ (s < u →
        (∃ body, get_timeseries_route db a s u i l = ApiResult.success 200 body
          ∧ (db.events.filter (eventMatchesWhere a (some s) (some u) l) = [] →
              body.series = []))
        ∧ (∃ body, get_by_level_route db a s u = ApiResult.success 200 body
          ∧ (db.events.filter (eventMatchesWhere a (some s) (some u) none) = [] →
              body.items = []))
        ∧ (∃ body, get_top_messages_route db a s u lim l
              = ApiResult.success 200 body
          ∧ (db.events.filter (eventMatchesWhere a (some s) (some u) l) = [] →
              body.items = []))) := by
  unfold get_timeseries_route get_by_level_route get_top_messages_route
  by_cases hgt : u ≤ s
  · simp only [if_pos hgt]
    refine ⟨fun er h => ?_, fun er h => ?_, fun er h => ?_,
      fun hlt => absurd hlt (by omega)⟩
    all_goals
      injection h with h1 h2
      exact absurd h1 (by decide)
  · simp only [if_neg hgt]
    refine ⟨fun er h => ApiResult.noConfusion h, fun er h => ApiResult.noConfusion h,
      fun er h => ApiResult.noConfusion h, fun _ => ?_⟩
    refine ⟨⟨_, rfl, fun hf => ?_⟩, ⟨_, rfl, fun hf => ?_⟩, ⟨_, rfl, fun hf => ?_⟩⟩
    · simp [read_bucket_stats_list, hf, groupCounts]
    · simp [read_stats_by_level, hf, groupCounts]
    · simp [read_top_messages, hf]

/-- Witness for C10 at an unregistered application id over the empty store. -/
theorem claim_C10_stats_never_404_witness :
    ∃ body, get_by_level_route dbEmpty 7 0 10 = ApiResult.success 200 body
      ∧ (dbEmpty.events.filter (eventMatchesWhere 7 (some 0) (some 10) none) = [] →
          body.items = []) :=
  ((claim_C10_stats_never_404 dbEmpty 7 0 10 10 TimeEnum.HOUR none).2.2.2
    (by decide)).2.1

end LogApi
